import Mathlib

/-!
Shallow embedding of the TutorSense analytics core (the `ts` repository),
covering the parts reached by the verified claims:

* `src/scripts/score_tutors.ts` — KPI aggregation (`computeMetrics`), the two
  scoring formulas (`computeScoreV1`, `computeScoreV2`, `computeScore`,
  `clampScore`), the churn-risk heuristic (`computeChurnRisk`, `clamp01`) and
  the trend builder (`smoothTrend`, `buildTrendForTutor`).
* `src/lib/ai/feature_engineering.ts` — feature vectors and batch statistics.
* `src/lib/ai/churn_predictor.ts` — logistic-regression training/prediction.
* `src/lib/ai/trend_forecaster.ts` — OLS forecast and confidence.
* `src/lib/ai/pattern_recognition.ts` — nearest-centroid persona assignment.
* `src/lib/ai/intervention_recommender.ts` — rule-based intervention ranking.

JavaScript `number` arithmetic is modelled exactly over `ℚ` where the source
only uses field operations and comparisons, and over `ℝ` where the source
calls `Math.sqrt` / `Math.exp`.  `Math.round x` is `⌊x + 1/2⌋`, which is
Mathlib's `round` on `ℚ`.  `Number.isFinite` guards are vacuously true in this
idealisation (no overflow/NaN), so the corresponding branches collapse; each
such place is noted next to its definition.
-/

namespace TutorSense

/-! ### Data model (`src/types/session.ts`, `src/types/metrics.ts`) -/

inductive SessionStatus where
  | completed
  | dropout
  | rescheduled
deriving DecidableEq

inductive RescheduleInitiator where
  | tutor
  | student
deriving DecidableEq

/-- `SessionRecord` from `src/types/session.ts`. -/
structure SessionRecord where
  sessionId : String
  tutorId : String
  date : String
  durationMinutes : ℚ
  rating : Option ℚ
  status : SessionStatus
  hasTechIssue : Bool
  isFirstSession : Bool
  rescheduleInitiator : Option RescheduleInitiator
  noShow : Bool
deriving DecidableEq

/-- `AggregatedMetrics` from `src/types/metrics.ts` (`null` ↦ `none`). -/
structure AggregatedMetrics where
  avgRating : Option ℚ
  dropoutRate : ℚ
  techIssueRate : ℚ
  rescheduleRate : ℚ
  sessionsCount : ℕ
  firstSessionAvgRating : Option ℚ
  firstSessionDropoutRate : ℚ
  firstSessionCount : ℕ
  tutorInitiatedRescheduleRate : ℚ
  tutorInitiatedRescheduleCount : ℕ
  noShowRate : ℚ
  noShowCount : ℕ
deriving DecidableEq

/-! ### KPI aggregator (`computeMetrics`, `src/scripts/score_tutors.ts:569`)

The source accumulates the counters in one pass over `sessions`; here each
counter is written as the count/sum it accumulates to. -/

/-- Sessions counted as dropouts by the loop. -/
def countDropouts (sessions : List SessionRecord) : ℕ :=
  sessions.countP (fun s => s.status = SessionStatus.dropout)

/-- First-session dropouts (the nested `if` under the `dropout` branch). -/
def countFirstSessionDropouts (sessions : List SessionRecord) : ℕ :=
  sessions.countP (fun s => s.status = SessionStatus.dropout ∧ s.isFirstSession)

/-- Sessions counted as reschedules by the loop. -/
def countReschedules (sessions : List SessionRecord) : ℕ :=
  sessions.countP (fun s => s.status = SessionStatus.rescheduled)

/-- Tutor-initiated reschedules (nested under the `rescheduled` branch). -/
def countTutorInitiatedReschedules (sessions : List SessionRecord) : ℕ :=
  sessions.countP (fun s =>
    s.status = SessionStatus.rescheduled ∧
      s.rescheduleInitiator = some RescheduleInitiator.tutor)

/-- Sessions with `hasTechIssue`. -/
def countTechIssues (sessions : List SessionRecord) : ℕ :=
  sessions.countP (fun s => s.hasTechIssue)

/-- Sessions with `noShow`. -/
def countNoShows (sessions : List SessionRecord) : ℕ :=
  sessions.countP (fun s => s.noShow)

/-- Sessions with `isFirstSession`. -/
def countFirstSessions (sessions : List SessionRecord) : ℕ :=
  sessions.countP (fun s => s.isFirstSession)

/-- The non-null ratings of a session list (drives `ratingSum`/`ratingCount`). -/
def ratedValues (sessions : List SessionRecord) : List ℚ :=
  sessions.filterMap (fun s => s.rating)

/-- Non-null ratings of first sessions. -/
def firstSessionRatedValues (sessions : List SessionRecord) : List ℚ :=
  (sessions.filter (fun s => s.isFirstSession)).filterMap (fun s => s.rating)

/-- `computeMetrics` (`src/scripts/score_tutors.ts:569-653`). -/
def computeMetrics (sessions : List SessionRecord) : AggregatedMetrics :=
  if sessions.length = 0 then
    { avgRating := none
      dropoutRate := 0
      techIssueRate := 0
      rescheduleRate := 0
      sessionsCount := 0
      firstSessionAvgRating := none
      firstSessionDropoutRate := 0
      firstSessionCount := 0
      tutorInitiatedRescheduleRate := 0
      tutorInitiatedRescheduleCount := 0
      noShowRate := 0
      noShowCount := 0 }
  else
    let total : ℕ := sessions.length
    let ratingCount : ℕ := (ratedValues sessions).length
    let firstSessionRatingCount : ℕ := (firstSessionRatedValues sessions).length
    let reschedules : ℕ := countReschedules sessions
    let firstSessionCount : ℕ := countFirstSessions sessions
    { avgRating :=
        if ratingCount > 0 then some ((ratedValues sessions).sum / ratingCount)
        else none
      dropoutRate := if total > 0 then (countDropouts sessions : ℚ) / total else 0
      techIssueRate := if total > 0 then (countTechIssues sessions : ℚ) / total else 0
      rescheduleRate := if total > 0 then (reschedules : ℚ) / total else 0
      sessionsCount := total
      firstSessionAvgRating :=
        if firstSessionRatingCount > 0 then
          some ((firstSessionRatedValues sessions).sum / firstSessionRatingCount)
        else none
      firstSessionDropoutRate :=
        if firstSessionCount > 0 then
          (countFirstSessionDropouts sessions : ℚ) / firstSessionCount
        else 0
      firstSessionCount := firstSessionCount
      tutorInitiatedRescheduleRate :=
        if reschedules > 0 then
          (countTutorInitiatedReschedules sessions : ℚ) / reschedules
        else 0
      tutorInitiatedRescheduleCount := countTutorInitiatedReschedules sessions
      noShowRate := if total > 0 then (countNoShows sessions : ℚ) / total else 0
      noShowCount := countNoShows sessions }

/-! ### Score calculator (`src/scripts/score_tutors.ts:655-723`) -/

inductive ScoreFormulaVersion where
  | v1
  | v2
deriving DecidableEq

/-- `clampScore` (`score_tutors.ts:712-723`); applied to `Math.round` results,
so modelled on `ℤ`.  The `Number.isFinite` guard is vacuous here. -/
def clampScore (value : ℤ) : ℤ :=
  if value < 0 then 0
  else if value > 100 then 100
  else value

/-- `computeScoreV1` (`score_tutors.ts:665-678`). -/
def computeScoreV1 (metrics : AggregatedMetrics) : ℤ :=
  let ratingForPenalty : ℚ := metrics.avgRating.getD 5
  let rawScore : ℚ :=
    100 -
      (metrics.dropoutRate * 40 + metrics.techIssueRate * 30 +
        metrics.rescheduleRate * 20 + (5 - ratingForPenalty) * 10)
  clampScore (round rawScore)

/-- `computeScoreV2` (`score_tutors.ts:680-710`). -/
def computeScoreV2 (metrics : AggregatedMetrics) : ℤ :=
  let avgRating : ℚ := metrics.avgRating.getD 5
  let firstSessionRating : ℚ :=
    metrics.firstSessionAvgRating.getD (metrics.avgRating.getD 5)
  let dropoutPenalty : ℚ := metrics.dropoutRate * 30
  let firstSessionDropoutPenalty : ℚ :=
    (if metrics.firstSessionCount > 0 then (35 : ℚ) else 20) *
      metrics.firstSessionDropoutRate
  let techPenalty : ℚ := metrics.techIssueRate * 18
  let reschedulePenalty : ℚ := metrics.rescheduleRate * 12
  let tutorReschedulePenalty : ℚ := metrics.tutorInitiatedRescheduleRate * 20
  let noShowPenalty : ℚ := metrics.noShowRate * 28
  let ratingPenalty : ℚ := (5 - avgRating) * 12
  let firstSessionRatingPenalty : ℚ := max 0 (4.5 - firstSessionRating) * 8
  let volumePenalty : ℚ :=
    if metrics.sessionsCount < 5 then 4 else if metrics.sessionsCount < 10 then 2 else 0
  let penaltySum : ℚ :=
    dropoutPenalty + firstSessionDropoutPenalty + techPenalty + reschedulePenalty +
      tutorReschedulePenalty + noShowPenalty + ratingPenalty +
      firstSessionRatingPenalty + volumePenalty
  let rawScore : ℚ := 100 - penaltySum
  clampScore (round rawScore)

/-- `computeScore` (`score_tutors.ts:655-663`). -/
def computeScore (metrics : AggregatedMetrics) (version : ScoreFormulaVersion) : ℤ :=
  match version with
  | ScoreFormulaVersion.v1 => computeScoreV1 metrics
  | ScoreFormulaVersion.v2 => computeScoreV2 metrics

/-! ### Churn-risk heuristic (`score_tutors.ts:725-776`) -/

/-- `clamp01` (`score_tutors.ts:725-736`); `Number.isFinite` vacuous. -/
def clamp01 (value : ℚ) : ℚ :=
  if value < 0 then 0
  else if value > 1 then 1
  else value

/-- `computeChurnRisk` (`score_tutors.ts:738-776`).  The score the caller
passes is the integer tutor score, the trend the smoothed integer trend. -/
def computeChurnRisk (metrics : AggregatedMetrics) (score : ℤ)
    (trend : List ℤ) : ℚ :=
  let base : ℚ :=
    metrics.dropoutRate * 0.4 + metrics.noShowRate * 0.3 +
      metrics.tutorInitiatedRescheduleRate * 0.2 +
      metrics.firstSessionDropoutRate * 0.1
  let withRating : ℚ :=
    base +
      (match metrics.firstSessionAvgRating with
       | some r => if r < 3.0 then (0.05 : ℚ) else 0
       | none => 0)
  let withScoreBand : ℚ :=
    withRating +
      (if score < 50 then (0.12 : ℚ)
       else if score < 60 then 0.08
       else if score < 70 then 0.04
       else 0)
  let withTrend : ℚ :=
    if 2 ≤ trend.length then
      let trendDelta : ℤ := trend.getLastD 0 - trend.headD 0
      if trendDelta < -15 then withScoreBand + 0.07
      else if trendDelta < -8 then withScoreBand + 0.04
      else if trendDelta > 5 then withScoreBand - 0.03
      else withScoreBand
    else withScoreBand
  clamp01 withTrend

/-! ### Trend builder (`score_tutors.ts:778-834`) -/

/-- The window the loop body of `smoothTrend` averages at index `i`:
`trend.slice(max 0 (i-halfWindow), min length (i+halfWindow+1))`.
`ℕ` subtraction is truncated, matching `Math.max(0, i - halfWindow)`. -/
def smoothWindow (trend : List ℤ) (halfWindow i : ℕ) : List ℤ :=
  let start : ℕ := i - halfWindow
  let stop : ℕ := min trend.length (i + halfWindow + 1)
  (trend.drop start).take (stop - start)

/-- `smoothTrend` (`score_tutors.ts:778-799`), default window size 3. -/
def smoothTrend (trend : List ℤ) (windowSize : ℕ := 3) : List ℤ :=
  if trend.length = 0 then []
  else if trend.length = 1 then trend
  else
    let halfWindow : ℕ := windowSize / 2
    (List.range trend.length).map (fun i =>
      let window := smoothWindow trend halfWindow i
      round ((window.sum : ℚ) / window.length))

/-- The per-day grouping `sessionsByDay.get(date)` of `buildTrendForTutor`:
the map is filled in list order, so a key's bucket is the order-preserving
filter of the sessions with that date. -/
def dailySessions (sessions : List SessionRecord) (date : String) :
    List SessionRecord :=
  sessions.filter (fun s => s.date = date)

/-- The raw (pre-smoothing) daily sequence of `buildTrendForTutor`:
score days with sessions in isolation, carry the previous score across gaps,
seeded with `fallbackScore`. -/
def rawTrend (sessions : List SessionRecord) (dates : List String)
    (lastScore : ℤ) (formulaVersion : ScoreFormulaVersion) : List ℤ :=
  match dates with
  | [] => []
  | date :: rest =>
    let daily := dailySessions sessions date
    if daily.length > 0 then
      let score := computeScore (computeMetrics daily) formulaVersion
      score :: rawTrend sessions rest score formulaVersion
    else
      lastScore :: rawTrend sessions rest lastScore formulaVersion

/-- `buildTrendForTutor` (`score_tutors.ts:801-834`). -/
def buildTrendForTutor (sessions : List SessionRecord) (dates : List String)
    (fallbackScore : ℤ) (formulaVersion : ScoreFormulaVersion) : List ℤ :=
  smoothTrend (rawTrend sessions dates fallbackScore formulaVersion) 3

/-! ### Feature engineering (`src/lib/ai/feature_engineering.ts`) -/

/-- The fixed feature names of `FEATURE_KEYS`
(`feature_engineering.ts:3-19`), as an enumeration. -/
inductive FeatureKey where
  | dropout_rate
  | tech_issue_rate
  | reschedule_rate
  | sessions_count
  | avg_rating
  | first_session_avg_rating
  | first_session_dropout_rate
  | first_session_count
  | tutor_initiated_reschedule_rate
  | no_show_rate
  | score
  | trend_slope
  | trend_variance
  | trend_velocity
  | churn_risk
deriving DecidableEq

/-- `FEATURE_KEYS` in source order. -/
def FEATURE_KEYS : List FeatureKey :=
  [FeatureKey.dropout_rate, FeatureKey.tech_issue_rate, FeatureKey.reschedule_rate,
   FeatureKey.sessions_count, FeatureKey.avg_rating,
   FeatureKey.first_session_avg_rating, FeatureKey.first_session_dropout_rate,
   FeatureKey.first_session_count, FeatureKey.tutor_initiated_reschedule_rate,
   FeatureKey.no_show_rate, FeatureKey.score, FeatureKey.trend_slope,
   FeatureKey.trend_variance, FeatureKey.trend_velocity, FeatureKey.churn_risk]

/-- The feature record built by `buildFeatureVector`.  In the source this is a
`Record<string, number>` that always carries exactly these 15 keys, so a total
structure is the faithful model; downstream `features[k] ?? 0` / `?? 5`
defaults never fire and collapse to plain field reads. -/
structure Features where
  dropout_rate : ℚ
  tech_issue_rate : ℚ
  reschedule_rate : ℚ
  sessions_count : ℚ
  avg_rating : ℚ
  first_session_avg_rating : ℚ
  first_session_dropout_rate : ℚ
  first_session_count : ℚ
  tutor_initiated_reschedule_rate : ℚ
  no_show_rate : ℚ
  score : ℚ
  trend_slope : ℚ
  trend_variance : ℚ
  trend_velocity : ℚ
  churn_risk : ℚ
deriving DecidableEq

/-- Keyed access `features[key]` used by the statistics / model loops. -/
def featureGet (f : Features) : FeatureKey → ℚ
  | FeatureKey.dropout_rate => f.dropout_rate
  | FeatureKey.tech_issue_rate => f.tech_issue_rate
  | FeatureKey.reschedule_rate => f.reschedule_rate
  | FeatureKey.sessions_count => f.sessions_count
  | FeatureKey.avg_rating => f.avg_rating
  | FeatureKey.first_session_avg_rating => f.first_session_avg_rating
  | FeatureKey.first_session_dropout_rate => f.first_session_dropout_rate
  | FeatureKey.first_session_count => f.first_session_count
  | FeatureKey.tutor_initiated_reschedule_rate => f.tutor_initiated_reschedule_rate
  | FeatureKey.no_show_rate => f.no_show_rate
  | FeatureKey.score => f.score
  | FeatureKey.trend_slope => f.trend_slope
  | FeatureKey.trend_variance => f.trend_variance
  | FeatureKey.trend_velocity => f.trend_velocity
  | FeatureKey.churn_risk => f.churn_risk

/-- `TutorFeatureVector` (`src/types/ai.ts`). -/
structure TutorFeatureVector where
  tutorId : String
  features : Features
  labelChurn : ℕ
deriving DecidableEq

/-- The `kpis` sub-object of `TutorFeatureInput` (`src/types/ai.ts`). -/
structure TutorKpis where
  avg_rating : Option ℚ
  dropout_rate : ℚ
  tech_issue_rate : ℚ
  reschedule_rate : ℚ
  sessions_count : ℚ
  first_session_avg_rating : Option ℚ
  first_session_dropout_rate : ℚ
  first_session_count : ℚ
  tutor_initiated_reschedule_rate : ℚ
  no_show_rate : ℚ
deriving DecidableEq

/-- `TutorFeatureInput` (`src/types/ai.ts`); `churn_risk` on the 0–100 scale. -/
structure TutorFeatureInput where
  tutor_id : String
  name : String
  subject : String
  score : ℚ
  trend_7d : List ℚ
  churn_risk : ℚ
  kpis : TutorKpis
deriving DecidableEq

/-- `safeNumber` (`feature_engineering.ts:21-26`): `null`/non-finite coerces
to 0.  Over `ℚ` only the `null` case can arise. -/
def safeNumber (value : Option ℚ) : ℚ :=
  value.getD 0

/-- `computeTrendSlope` (`feature_engineering.ts:28-47`): OLS slope of trend
values against their index. -/
def computeTrendSlope (trend : List ℚ) : ℚ :=
  if trend.length = 0 then 0
  else
    let n : ℕ := trend.length
    let xMean : ℚ := ((n : ℚ) - 1) / 2
    let yMean : ℚ := trend.sum / n
    let numerator : ℚ :=
      (trend.enum.map (fun p => ((p.1 : ℚ) - xMean) * (p.2 - yMean))).sum
    let denominator : ℚ :=
      (trend.enum.map (fun p => ((p.1 : ℚ) - xMean) ^ 2)).sum
    if denominator = 0 then 0 else numerator / denominator

/-- `computeTrendVariance` (`feature_engineering.ts:49-57`): population
variance of the trend values. -/
def computeTrendVariance (trend : List ℚ) : ℚ :=
  if trend.length = 0 then 0
  else
    let mean : ℚ := trend.sum / trend.length
    (trend.map (fun v => (v - mean) ^ 2)).sum / trend.length

/-- `computeTrendVelocity` (`feature_engineering.ts:59-66`): last minus first. -/
def computeTrendVelocity (trend : List ℚ) : ℚ :=
  if trend.length < 2 then 0
  else trend.getLastD 0 - trend.headD 0

/-- `buildFeatureVector` (`feature_engineering.ts:68-108`). -/
def buildFeatureVector (tutor : TutorFeatureInput) : TutorFeatureVector :=
  let trendSlope := computeTrendSlope tutor.trend_7d
  let trendVariance := computeTrendVariance tutor.trend_7d
  let trendVelocity := computeTrendVelocity tutor.trend_7d
  { tutorId := tutor.tutor_id
    features :=
      { dropout_rate := tutor.kpis.dropout_rate
        tech_issue_rate := tutor.kpis.tech_issue_rate
        reschedule_rate := tutor.kpis.reschedule_rate
        sessions_count := tutor.kpis.sessions_count
        avg_rating := safeNumber tutor.kpis.avg_rating
        first_session_avg_rating := safeNumber tutor.kpis.first_session_avg_rating
        first_session_dropout_rate := tutor.kpis.first_session_dropout_rate
        first_session_count := tutor.kpis.first_session_count
        tutor_initiated_reschedule_rate := tutor.kpis.tutor_initiated_reschedule_rate
        no_show_rate := tutor.kpis.no_show_rate
        score := tutor.score
        trend_slope := trendSlope
        trend_variance := trendVariance
        trend_velocity := trendVelocity
        churn_risk := tutor.churn_risk / 100 }
    labelChurn :=
      if tutor.score < 60 ∨ tutor.churn_risk > 55 ∨ tutor.kpis.dropout_rate > 0.18
      then 1 else 0 }

/-- `FeatureStatistics` (`src/types/ai.ts`): per-key population mean and
standard deviation.  `ℝ`-valued because the source takes `Math.sqrt`. -/
structure FeatureStatistics where
  means : FeatureKey → ℝ
  stdDevs : FeatureKey → ℝ

/-- JavaScript `x || 1` on the result of `Math.sqrt(variance)`: the only falsy
value reachable from a nonnegative variance is `0`, which is replaced by 1. -/
noncomputable def orOne (x : ℝ) : ℝ :=
  if x = 0 then 1 else x

/-- `computeStatistics` (`feature_engineering.ts:110-128`). -/
noncomputable def computeStatistics (vectors : List TutorFeatureVector) : FeatureStatistics :=
  let values : FeatureKey → List ℝ :=
    fun key => vectors.map (fun vector => ((featureGet vector.features key : ℚ) : ℝ))
  let mean : FeatureKey → ℝ :=
    fun key => (values key).sum / max (values key).length 1
  let variance : FeatureKey → ℝ :=
    fun key =>
      ((values key).map (fun v => (v - mean key) ^ 2)).sum /
        max (values key).length 1
  { means := mean
    stdDevs := fun key => orOne (Real.sqrt (variance key)) }

/-- `normaliseFeature` (`feature_engineering.ts:130-139`). -/
noncomputable def normaliseFeature (value mean stdDev : ℝ) : ℝ :=
  if stdDev = 0 then 0 else (value - mean) / stdDev

/-- `FeatureMatrix` (`src/types/ai.ts`). -/
structure FeatureMatrix where
  vectors : List TutorFeatureVector
  featureOrder : List FeatureKey
  stats : FeatureStatistics

/-- `buildFeatureMatrix` (`feature_engineering.ts:141-151`). -/
noncomputable def buildFeatureMatrix (tutors : List TutorFeatureInput) : FeatureMatrix :=
  let vectors := tutors.map buildFeatureVector
  { vectors := vectors
    stats := computeStatistics vectors
    featureOrder := FEATURE_KEYS }

/-! ### Churn predictor (`src/lib/ai/churn_predictor.ts`)

The training hyper-parameters are the `DEFAULT_OPTIONS` of the source
(learning rate 0.3, 600 iterations, L2 regularisation 0.0005); every caller in
the repository trains with the defaults. -/

/-- `sigmoid` (`churn_predictor.ts:8-10`). -/
noncomputable def sigmoid (value : ℝ) : ℝ :=
  1 / (1 + Real.exp (-value))

/-- `AiModelArtifacts` (`src/types/ai.ts`); the per-key records are modelled
as total functions on the feature-key enumeration. -/
structure AiModelArtifacts where
  weights : FeatureKey → ℝ
  bias : ℝ
  featureKeys : List FeatureKey
  featureMeans : FeatureKey → ℝ
  featureStds : FeatureKey → ℝ

/-- `initialiseWeights` (`churn_predictor.ts:24-30`): the record mapping every
feature key to 0. -/
noncomputable def initialiseWeights : FeatureKey → ℝ :=
  fun _ => 0

/-- `computePrediction` (`churn_predictor.ts:32-50`). -/
noncomputable def computePrediction (vector : TutorFeatureVector)
    (weights : FeatureKey → ℝ) (bias : ℝ) (stats : FeatureStatistics)
    (featureOrder : List FeatureKey) : ℝ :=
  sigmoid (bias +
    (featureOrder.map (fun key =>
      weights key *
        normaliseFeature ((featureGet vector.features key : ℚ) : ℝ)
          (stats.means key) (stats.stdDevs key))).sum)

/-- The mutable `(weights, bias)` pair of the training loop. -/
structure TrainState where
  weights : FeatureKey → ℝ
  bias : ℝ

/-- One iteration of the gradient-descent loop of `trainChurnModel`
(`churn_predictor.ts:74-109`). -/
noncomputable def gradientStep (vectors : List TutorFeatureVector)
    (stats : FeatureStatistics) (featureOrder : List FeatureKey)
    (learningRate regularization : ℝ) (state : TrainState) : TrainState :=
  let errorOf : TutorFeatureVector → ℝ := fun vector =>
    computePrediction vector state.weights state.bias stats featureOrder -
      (vector.labelChurn : ℝ)
  let biasGradient : ℝ := (vectors.map errorOf).sum
  let weightGradient : FeatureKey → ℝ := fun key =>
    (vectors.map (fun vector =>
      errorOf vector *
        normaliseFeature ((featureGet vector.features key : ℚ) : ℝ)
          (stats.means key) (stats.stdDevs key))).sum
  { bias := state.bias - (learningRate / (vectors.length : ℝ)) * biasGradient
    weights := fun key =>
      state.weights key -
        ((learningRate / (vectors.length : ℝ)) * weightGradient key +
          regularization * state.weights key) }

/-- `trainChurnModel` (`churn_predictor.ts:52-118`) at the default options. -/
noncomputable def trainChurnModel (matrix : FeatureMatrix) : AiModelArtifacts :=
  if matrix.vectors.length = 0 then
    { weights := initialiseWeights
      bias := 0
      featureKeys := matrix.featureOrder
      featureMeans := matrix.stats.means
      featureStds := matrix.stats.stdDevs }
  else
    let final : TrainState :=
      (gradientStep matrix.vectors matrix.stats matrix.featureOrder 0.3 0.0005)^[600]
        { weights := initialiseWeights, bias := 0 }
    { weights := final.weights
      bias := final.bias
      featureKeys := matrix.featureOrder
      featureMeans := matrix.stats.means
      featureStds := matrix.stats.stdDevs }

/-- `ChurnPrediction` (`churn_predictor.ts:120-123`). -/
structure ChurnPrediction where
  probability : ℝ
  confidence : ℝ

/-- `predictChurn` (`churn_predictor.ts:125-146`). -/
noncomputable def predictChurn (vector : TutorFeatureVector)
    (model : AiModelArtifacts) : ChurnPrediction :=
  let sum : ℝ := model.bias +
    (model.featureKeys.map (fun key =>
      model.weights key *
        normaliseFeature ((featureGet vector.features key : ℚ) : ℝ)
          (model.featureMeans key) (model.featureStds key))).sum
  { probability := sigmoid sum
    confidence := min 1 (|sum| / 4 + 0.25) }

/-! ### Trend forecaster (`src/lib/ai/trend_forecaster.ts`)

The `description` string of `AiForecast` interpolates formatted numbers and is
not modelled; no claim touches it. -/

inductive AiTrajectory where
  | improving
  | declining
  | volatile
  | stable
deriving DecidableEq

/-- `clamp` (`trend_forecaster.ts:8-13`); the `Number.isFinite` guard is
vacuous over `ℚ`. -/
def clamp (value vmin vmax : ℚ) : ℚ :=
  min vmax (max vmin value)

/-- The `{slope, intercept}` result of `computeLinearRegression`. -/
structure RegressionLine where
  slope : ℚ
  intercept : ℚ
deriving DecidableEq

/-- `computeLinearRegression` (`trend_forecaster.ts:15-31`). -/
def computeLinearRegression (trend : List ℚ) : RegressionLine :=
  if trend.length = 0 then { slope := 0, intercept := 0 }
  else
    let n : ℕ := trend.length
    let xMean : ℚ := ((n : ℚ) - 1) / 2
    let yMean : ℚ := trend.sum / n
    let numerator : ℚ :=
      (trend.enum.map (fun p => ((p.1 : ℚ) - xMean) * (p.2 - yMean))).sum
    let denominator : ℚ :=
      (trend.enum.map (fun p => ((p.1 : ℚ) - xMean) ^ 2)).sum
    let slope : ℚ := if denominator = 0 then 0 else numerator / denominator
    { slope := slope, intercept := yMean - slope * xMean }

/-- `projectValue` (`trend_forecaster.ts:33-44`); over `ℚ` the projected value
is always finite, so the `fallback` branch never fires. -/
def projectValue (index slope intercept _fallback : ℚ) : ℚ :=
  slope * index + intercept

/-- `classifyTrajectory` (`trend_forecaster.ts:46-57`). -/
def classifyTrajectory (slope variance : ℚ) : AiTrajectory :=
  if |slope| < 0.5 ∧ variance > 30 then AiTrajectory.volatile
  else if slope > 0.5 then AiTrajectory.improving
  else if slope < -0.5 then AiTrajectory.declining
  else AiTrajectory.stable

/-- `computeVariance` (`trend_forecaster.ts:59-65`). -/
def computeVariance (trend : List ℚ) : ℚ :=
  if trend.length = 0 then 0
  else
    let mean : ℚ := trend.sum / trend.length
    (trend.map (fun v => (v - mean) ^ 2)).sum / trend.length

/-- `AiForecast` (`src/types/ai.ts`), minus the free-text `description`. -/
structure AiForecast where
  score7d : ℚ
  score14d : ℚ
  trajectory : AiTrajectory
  confidence : ℚ
deriving DecidableEq

/-- `forecastTrend` (`trend_forecaster.ts:84-103`). -/
def forecastTrend (trend : List ℚ) (currentScore : ℚ) : AiForecast :=
  let regression := computeLinearRegression trend
  let variance := computeVariance trend
  let nextIndex7 : ℚ := (trend.length : ℚ) + 7
  let nextIndex14 : ℚ := (trend.length : ℚ) + 14
  let projected7 := projectValue nextIndex7 regression.slope regression.intercept currentScore
  let projected14 := projectValue nextIndex14 regression.slope regression.intercept projected7
  { score7d := clamp projected7 0 100
    score14d := clamp projected14 0 100
    trajectory := classifyTrajectory regression.slope variance
    confidence := clamp (1 - min 1 (variance / 80)) 0.2 0.95 }

/-! ### Persona classifier (`src/lib/ai/pattern_recognition.ts`) -/

/-- `AiPersonaProfile` (`src/types/ai.ts`). -/
structure AiPersonaProfile where
  id : String
  label : String
  description : String
  strengths : List String
  risks : List String
deriving DecidableEq

/-- `PERSONA_LIBRARY[0]` (`pattern_recognition.ts:8-15`). -/
def risingStar : AiPersonaProfile :=
  { id := "rising-star"
    label := "Rising Star"
    description :=
      "Strong fundamentals with positive momentum. Benefit from advanced coaching to accelerate growth."
    strengths := ["Consistent improvements", "High student satisfaction"]
    risks := ["Needs stretch assignments", "Watch for burnout"] }

/-- `PERSONA_LIBRARY[1]` (`pattern_recognition.ts:16-23`). -/
def atRiskNewcomer : AiPersonaProfile :=
  { id := "at-risk-newcomer"
    label := "At-Risk Newcomer"
    description :=
      "Early-stage tutor with unstable first-session outcomes. Requires structured onboarding support."
    strengths := ["Coachability", "Fresh perspective"]
    risks := ["High first-session churn", "Inconsistent delivery"] }

/-- `PERSONA_LIBRARY[2]` (`pattern_recognition.ts:24-31`). -/
def reliabilityChallenged : AiPersonaProfile :=
  { id := "reliability-challenged"
    label := "Reliability Challenged"
    description :=
      "High dropout or reschedule behavior impacting student trust. Focus on accountability frameworks."
    strengths := ["Strong subject expertise"]
    risks := ["Scheduling reliability", "Attendance issues"] }

/-- `PERSONA_LIBRARY[3]` (`pattern_recognition.ts:32-39`). -/
def stabilizing : AiPersonaProfile :=
  { id := "stabilizing"
    label := "Stabilizing Performer"
    description :=
      "Recovering from previous performance issues with signs of stabilization. Keep momentum with lightweight support."
    strengths := ["Trend improving", "Responds to coaching"]
    risks := ["Fragile confidence", "Needs reinforcement"] }

/-- `PERSONA_LIBRARY` (`pattern_recognition.ts:7-40`). -/
def PERSONA_LIBRARY : List AiPersonaProfile :=
  [risingStar, atRiskNewcomer, reliabilityChallenged, stabilizing]

/-- The 7-key normalized subspace shared by `normaliseVector` and
`personaToCentroid`; both always produce exactly these keys, so the key-union
taken by `euclideanDistance` is this fixed set. -/
structure PersonaVec where
  dropout_rate : ℚ
  first_session_dropout_rate : ℚ
  tutor_initiated_reschedule_rate : ℚ
  no_show_rate : ℚ
  trend_velocity : ℚ
  trend_slope : ℚ
  score : ℚ
deriving DecidableEq

/-- `normaliseVector` (`pattern_recognition.ts:67-78`). -/
def normaliseVector (vector : TutorFeatureVector) : PersonaVec :=
  { dropout_rate := vector.features.dropout_rate
    first_session_dropout_rate := vector.features.first_session_dropout_rate
    tutor_initiated_reschedule_rate := vector.features.tutor_initiated_reschedule_rate
    no_show_rate := vector.features.no_show_rate
    trend_velocity := vector.features.trend_velocity / 100
    trend_slope := vector.features.trend_slope / 100
    score := vector.features.score / 100 }

/-- `personaToCentroid` (`pattern_recognition.ts:98-151`), including the
`default` branch for an id outside the library. -/
def personaToCentroid (persona : AiPersonaProfile) : PersonaVec :=
  if persona.id = "rising-star" then
    { dropout_rate := 0.05, first_session_dropout_rate := 0.05
      tutor_initiated_reschedule_rate := 0.05, no_show_rate := 0.03
      trend_velocity := 0.2, trend_slope := 0.3, score := 0.85 }
  else if persona.id = "at-risk-newcomer" then
    { dropout_rate := 0.2, first_session_dropout_rate := 0.35
      tutor_initiated_reschedule_rate := 0.1, no_show_rate := 0.05
      trend_velocity := -0.15, trend_slope := -0.1, score := 0.45 }
  else if persona.id = "reliability-challenged" then
    { dropout_rate := 0.25, first_session_dropout_rate := 0.2
      tutor_initiated_reschedule_rate := 0.35, no_show_rate := 0.2
      trend_velocity := -0.05, trend_slope := -0.05, score := 0.5 }
  else if persona.id = "stabilizing" then
    { dropout_rate := 0.12, first_session_dropout_rate := 0.12
      tutor_initiated_reschedule_rate := 0.15, no_show_rate := 0.08
      trend_velocity := 0.05, trend_slope := 0.1, score := 0.65 }
  else
    { dropout_rate := 0.15, first_session_dropout_rate := 0.15
      tutor_initiated_reschedule_rate := 0.15, no_show_rate := 0.1
      trend_velocity := 0, trend_slope := 0, score := 0.6 }

/-- `euclideanDistance` (`pattern_recognition.ts:42-50`) over the 7 shared
keys. -/
noncomputable def euclideanDistance (a b : PersonaVec) : ℝ :=
  Real.sqrt
    ((((a.dropout_rate - b.dropout_rate : ℚ) : ℝ)) ^ 2 +
      (((a.first_session_dropout_rate - b.first_session_dropout_rate : ℚ) : ℝ)) ^ 2 +
      (((a.tutor_initiated_reschedule_rate - b.tutor_initiated_reschedule_rate : ℚ) : ℝ)) ^ 2 +
      (((a.no_show_rate - b.no_show_rate : ℚ) : ℝ)) ^ 2 +
      (((a.trend_velocity - b.trend_velocity : ℚ) : ℝ)) ^ 2 +
      (((a.trend_slope - b.trend_slope : ℚ) : ℝ)) ^ 2 +
      (((a.score - b.score : ℚ) : ℝ)) ^ 2)

open Classical in
/-- The scan loop of `assignPersona` (`pattern_recognition.ts:83-94`):
`minDistance` starts at `Infinity`, modelled as `none`; a candidate replaces
the current champion exactly when its distance is strictly smaller. -/
noncomputable def assignPersonaLoop (featureVector : PersonaVec) :
    List AiPersonaProfile → AiPersonaProfile → Option ℝ → AiPersonaProfile
  | [], closest, _ => closest
  | persona :: rest, closest, minDistance =>
    let distance := euclideanDistance featureVector (personaToCentroid persona)
    if (match minDistance with
        | none => True
        | some m => distance < m) then
      assignPersonaLoop featureVector rest persona (some distance)
    else
      assignPersonaLoop featureVector rest closest minDistance

/-- `assignPersona` (`pattern_recognition.ts:80-96`); the champion is seeded
with `PERSONA_LIBRARY[0]` and the loop runs over the whole library. -/
noncomputable def assignPersona (vector : TutorFeatureVector) : AiPersonaProfile :=
  assignPersonaLoop (normaliseVector vector) PERSONA_LIBRARY risingStar none

/-- `buildClusterInsights` (`pattern_recognition.ts:153-158`). -/
noncomputable def buildClusterInsights (vector : TutorFeatureVector) :
    AiPersonaProfile :=
  assignPersona vector

/-! ### Intervention recommender (`src/lib/ai/intervention_recommender.ts`)

`AiInterventionRecommendation.description` and `.rationale` are free text (the
latter interpolates the tutor's numbers) and are not modelled; no claim reads
them.  The library entry field named `match` in the source is `matchScore`
here (`match` is a Lean keyword). -/

inductive EffortLevel where
  | low
  | medium
  | high
deriving DecidableEq

/-- `AiInterventionRecommendation` (`src/types/ai.ts`), numeric/enumerable
fields. -/
structure AiInterventionRecommendation where
  id : String
  title : String
  effectiveness : ℚ
  effort : EffortLevel
deriving DecidableEq

/-- `InterventionContext` (`intervention_recommender.ts:6-10`). -/
structure InterventionContext where
  churnProbability : ℚ
  anomalyScore : ℚ
  forecastTrajectory : AiTrajectory
deriving DecidableEq

/-- One entry of `INTERVENTION_LIBRARY` (`intervention_recommender.ts:12-16`). -/
structure InterventionCandidate where
  id : String
  matchScore : TutorFeatureVector → InterventionContext → ℚ
  build : TutorFeatureVector → AiInterventionRecommendation

/-- `INTERVENTION_LIBRARY` (`intervention_recommender.ts:12-124`).  The
`?? 0` / `?? 5` feature defaults in the source collapse to plain field reads
(see `Features`). -/
def INTERVENTION_LIBRARY : List InterventionCandidate :=
  [{ id := "first-session-rescue"
     matchScore := fun vector _ =>
       let dropout := vector.features.first_session_dropout_rate
       let rating := vector.features.first_session_avg_rating
       max 0 (dropout * 2 + (3.5 - rating))
     build := fun _ =>
       { id := "first-session-rescue", title := "First Session Rescue Plan"
         effectiveness := 0.75, effort := EffortLevel.medium } },
   { id := "tech-intervention"
     matchScore := fun vector _ => vector.features.tech_issue_rate * 4
     build := fun _ =>
       { id := "tech-intervention", title := "Technical Coaching & Equipment Audit"
         effectiveness := 0.68, effort := EffortLevel.high } },
   { id := "scheduling-discipline"
     matchScore := fun vector _ => vector.features.tutor_initiated_reschedule_rate * 3
     build := fun _ =>
       { id := "scheduling-discipline", title := "Scheduling Discipline Reset"
         effectiveness := 0.62, effort := EffortLevel.medium } },
   { id := "no-show-mitigation"
     matchScore := fun vector _ => vector.features.no_show_rate * 4
     build := fun _ =>
       { id := "no-show-mitigation", title := "Attendance Reinforcement"
         effectiveness := 0.65, effort := EffortLevel.medium } },
   { id := "quality-lift"
     matchScore := fun vector _ => max 0 (4.5 - vector.features.avg_rating)
     build := fun _ =>
       { id := "quality-lift", title := "Quality Lift Mentorship"
         effectiveness := 0.58, effort := EffortLevel.high } },
   { id := "momentum-boost"
     matchScore := fun vector context =>
       if context.forecastTrajectory = AiTrajectory.declining then
         |vector.features.trend_velocity| / 10
       else 0
     build := fun _ =>
       { id := "momentum-boost", title := "Momentum Boost Sprint"
         effectiveness := 0.55, effort := EffortLevel.low } }]

/-- A `{intervention, score}` pair of `recommendInterventions`. -/
structure ScoredIntervention where
  intervention : AiInterventionRecommendation
  score : ℚ
deriving DecidableEq

/-- Stable descending insertion for `scored.sort((a, b) => b.score - a.score)`:
an earlier entry stays ahead of any later entry of equal score, matching the
stability guarantee of `Array.prototype.sort`. -/
def insertByScoreDesc (entry : ScoredIntervention) :
    List ScoredIntervention → List ScoredIntervention
  | [] => [entry]
  | head :: tail =>
    if entry.score ≥ head.score then entry :: head :: tail
    else head :: insertByScoreDesc entry tail

/-- Stable sort by descending `score`. -/
def sortByScoreDesc : List ScoredIntervention → List ScoredIntervention
  | [] => []
  | entry :: rest => insertByScoreDesc entry (sortByScoreDesc rest)

/-- `recommendInterventions` (`intervention_recommender.ts:126-140`). -/
def recommendInterventions (vector : TutorFeatureVector)
    (context : InterventionContext) : List AiInterventionRecommendation :=
  let scored : List ScoredIntervention :=
    (INTERVENTION_LIBRARY.map (fun item =>
      { intervention := item.build vector
        score := item.matchScore vector context })).filter
      (fun entry => entry.score > 0.05)
  let sorted := sortByScoreDesc scored
  (sorted.take 3).enum.map (fun p =>
    { p.2.intervention with
        effectiveness := min 0.95 (p.2.intervention.effectiveness + (p.1 : ℚ) * 0.05) })

/-! ### Example inputs

`zeroSession…` is the pipeline's own data for a tutor with no sessions, built
exactly as `runScoringPipeline` (`score_tutors.ts:112-166`) builds the
`TutorFeatureInput` handed to the AI layer: metrics of the empty session list,
the default v2 score, a 7-date gap-filled trend seeded with that score, the
churn-risk heuristic scaled to 0–100, and KPI fields copied from the metrics
(the source's rounding to 2/4 decimals is the identity on `0` and `null`). -/

/-- Seven consecutive trend dates (`buildTrendDates` emits one string per
calendar day; the concrete strings are irrelevant, only their count is). -/
def zeroSessionDates : List String :=
  ["2025-01-01", "2025-01-02", "2025-01-03", "2025-01-04", "2025-01-05",
   "2025-01-06", "2025-01-07"]

/-- The overall v2 score of a tutor with no sessions. -/
def zeroSessionScore : ℤ := computeScore (computeMetrics []) ScoreFormulaVersion.v2

/-- The smoothed trend of a tutor with no sessions over `zeroSessionDates`. -/
def zeroSessionTrend : List ℤ :=
  buildTrendForTutor [] zeroSessionDates zeroSessionScore ScoreFormulaVersion.v2

/-- The zero-session trend as the rational list handed to the AI layer. -/
def zeroSessionTrendQ : List ℚ := zeroSessionTrend.map (fun n => (n : ℚ))

/-- The KPI object of a zero-session tutor (`score_tutors.ts:131-149`). -/
def zeroSessionKpis : TutorKpis :=
  { avg_rating := (computeMetrics []).avgRating
    dropout_rate := (computeMetrics []).dropoutRate
    tech_issue_rate := (computeMetrics []).techIssueRate
    reschedule_rate := (computeMetrics []).rescheduleRate
    sessions_count := ((computeMetrics []).sessionsCount : ℚ)
    first_session_avg_rating := (computeMetrics []).firstSessionAvgRating
    first_session_dropout_rate := (computeMetrics []).firstSessionDropoutRate
    first_session_count := ((computeMetrics []).firstSessionCount : ℚ)
    tutor_initiated_reschedule_rate := (computeMetrics []).tutorInitiatedRescheduleRate
    no_show_rate := (computeMetrics []).noShowRate }

/-- The `TutorFeatureInput` of a zero-session tutor (`score_tutors.ts:158-166`). -/
def zeroSessionInput : TutorFeatureInput :=
  { tutor_id := "tutor-zero", name := "Zero Session Tutor", subject := "math"
    score := (zeroSessionScore : ℚ)
    trend_7d := zeroSessionTrendQ
    churn_risk := computeChurnRisk (computeMetrics []) zeroSessionScore zeroSessionTrend * 100
    kpis := zeroSessionKpis }

/-- The feature vector the pipeline builds for a zero-session tutor. -/
def zeroSessionVector : TutorFeatureVector := buildFeatureVector zeroSessionInput

/-- The intervention context of the zero-session tutor: the trajectory is the
one the forecaster computes for its flat trend; the two probability fields are
not read by any match function in `INTERVENTION_LIBRARY`, so representative
values suffice. -/
def zeroSessionContext : InterventionContext :=
  { churnProbability := 1/2, anomalyScore := 0,
    forecastTrajectory :=
      (forecastTrend zeroSessionTrendQ (zeroSessionScore : ℚ)).trajectory }

/-- An all-zero feature record, as produced for a tutor whose rates, score and
trend statistics are all zero. -/
def zeroFeatures : Features :=
  { dropout_rate := 0, tech_issue_rate := 0, reschedule_rate := 0,
    sessions_count := 0, avg_rating := 0, first_session_avg_rating := 0,
    first_session_dropout_rate := 0, first_session_count := 0,
    tutor_initiated_reschedule_rate := 0, no_show_rate := 0, score := 0,
    trend_slope := 0, trend_variance := 0, trend_velocity := 0, churn_risk := 0 }

/-- A feature vector with every feature 0. -/
def flatVector : TutorFeatureVector :=
  { tutorId := "tutor-a", features := zeroFeatures, labelChurn := 0 }

/-- A feature vector whose only nonzero feature is a dropout rate of 1. -/
def dropoutVector : TutorFeatureVector :=
  { tutorId := "tutor-b", features := { zeroFeatures with dropout_rate := 1 },
    labelChurn := 0 }

/-! ### Helper lemmas -/

/-- `clampScore` outputs lie in `[0, 100]`. -/
theorem clampScore_bounds (v : ℤ) : 0 ≤ clampScore v ∧ clampScore v ≤ 100 := by
  unfold clampScore
  split <;> [omega; (split <;> omega)]

/-- `clamp01` outputs lie in `[0, 1]`. -/
theorem clamp01_bounds (v : ℚ) : 0 ≤ clamp01 v ∧ clamp01 v ≤ 1 := by
  unfold clamp01
  split
  · norm_num
  · split
    · norm_num
    · constructor <;> linarith [le_of_not_lt (by assumption : ¬ v < 0)]

/-- `clamp` keeps its output between its bounds whenever they are ordered. -/
theorem clamp_bounds (v lo hi : ℚ) (h : lo ≤ hi) :
    lo ≤ clamp v lo hi ∧ clamp v lo hi ≤ hi := by
  unfold clamp
  exact ⟨le_min h (le_max_left lo v), min_le_left hi _⟩

/-- `smoothTrend` preserves the length of its input. -/
theorem smoothTrend_length (trend : List ℤ) (w : ℕ) :
    (smoothTrend trend w).length = trend.length := by
  unfold smoothTrend
  split
  · simp_all
  · split
    · rfl
    · simp

/-- `rawTrend` emits one entry per requested date. -/
theorem rawTrend_length (sessions : List SessionRecord) (dates : List String)
    (s : ℤ) (v : ScoreFormulaVersion) :
    (rawTrend sessions dates s v).length = dates.length := by
  induction dates generalizing s with
  | nil => rfl
  | cons d rest ih =>
    by_cases h : (dailySessions sessions d).length > 0 <;>
      simp [rawTrend, h, ih]

/-- The scan loop of `assignPersona` only ever answers with its seed champion
or a library entry it visited. -/
theorem assignPersonaLoop_mem (fv : PersonaVec) (ps : List AiPersonaProfile)
    (closest : AiPersonaProfile) (minD : Option ℝ) :
    assignPersonaLoop fv ps closest minD = closest ∨
      assignPersonaLoop fv ps closest minD ∈ ps := by
  induction ps generalizing closest minD with
  | nil => left; rfl
  | cons p rest ih =>
    rw [assignPersonaLoop.eq_def]
    dsimp only
    split
    · rcases ih p (some (euclideanDistance fv (personaToCentroid p))) with h | h
      · right; rw [h]; exact List.mem_cons_self _ _
      · right; exact List.mem_cons_of_mem _ h
    · rcases ih closest minD with h | h
      · left; exact h
      · right; exact List.mem_cons_of_mem _ h

/-- The zero-session tutor's overall v2 score evaluates to 96. -/
theorem zeroSessionScore_eval : zeroSessionScore = 96 := by
  unfold zeroSessionScore computeScore
  simp [computeScoreV2, computeMetrics]
  norm_num [round_eq, clampScore]

/-- The zero-session raw trend is seven copies of the fallback score 96. -/
theorem zeroSession_rawTrend_eval :
    rawTrend [] zeroSessionDates zeroSessionScore ScoreFormulaVersion.v2 =
      List.replicate 7 96 := by
  simp [rawTrend, dailySessions, zeroSessionDates, zeroSessionScore_eval,
    List.replicate]

/-- Smoothing the flat raw trend leaves it at seven copies of 96. -/
theorem zeroSessionTrend_eval : zeroSessionTrend = List.replicate 7 96 := by
  unfold zeroSessionTrend buildTrendForTutor
  rw [zeroSession_rawTrend_eval]
  unfold smoothTrend
  norm_num [List.range_succ, smoothWindow, List.replicate, round_eq]

/-- The rational copy of the zero-session trend. -/
theorem zeroSessionTrendQ_eval : zeroSessionTrendQ = List.replicate 7 96 := by
  unfold zeroSessionTrendQ
  rw [zeroSessionTrend_eval]
  simp [List.replicate]

/-- The churn-risk heuristic of the zero-session tutor is 0. -/
theorem zeroSession_churnRisk_eval :
    computeChurnRisk (computeMetrics []) zeroSessionScore zeroSessionTrend = 0 := by
  rw [zeroSessionScore_eval, zeroSessionTrend_eval]
  simp [computeChurnRisk, computeMetrics, List.replicate]
  norm_num [clamp01]

/-- The zero-session tutor's feature record: every rate and both coerced
ratings are 0, the score is 96, all trend statistics vanish. -/
theorem zeroSessionVector_features_eval :
    zeroSessionVector.features = { zeroFeatures with score := 96 } := by
  unfold zeroSessionVector buildFeatureVector zeroSessionInput zeroSessionKpis
  rw [zeroSession_churnRisk_eval, zeroSessionScore_eval, zeroSessionTrendQ_eval]
  simp [zeroFeatures, computeMetrics, safeNumber, computeTrendSlope,
    computeTrendVariance, computeTrendVelocity, List.replicate, List.enum,
    List.enumFrom]
  norm_num

/-- The forecaster classifies the flat zero-session trend as `stable`. -/
theorem zeroSessionContext_trajectory_eval :
    zeroSessionContext.forecastTrajectory = AiTrajectory.stable := by
  unfold zeroSessionContext
  rw [zeroSessionTrendQ_eval]
  simp [forecastTrend, computeLinearRegression, computeVariance,
    classifyTrajectory, List.replicate, List.enum, List.enumFrom]
  norm_num

/-- The recommender's output for the zero-session tutor: `quality-lift`
(match score 4.5) followed by `first-session-rescue` (match score 3.5). -/
theorem zeroSession_recommendationIds :
    (recommendInterventions zeroSessionVector zeroSessionContext).map
        (fun r => r.id) = ["quality-lift", "first-session-rescue"] := by
  have hveq : zeroSessionVector =
      { tutorId := zeroSessionVector.tutorId
        features := { zeroFeatures with score := 96 }
        labelChurn := zeroSessionVector.labelChurn } := by
    rw [← zeroSessionVector_features_eval]
  have hceq : zeroSessionContext =
      { churnProbability := zeroSessionContext.churnProbability
        anomalyScore := zeroSessionContext.anomalyScore
        forecastTrajectory := AiTrajectory.stable } := by
    rw [← zeroSessionContext_trajectory_eval]
  rw [hveq, hceq]
  norm_num [recommendInterventions, INTERVENTION_LIBRARY, zeroFeatures,
    sortByScoreDesc, insertByScoreDesc, List.filter, List.enum, List.enumFrom]

/-! ### Claim theorems -/

/-- C1 (counterexample): the claim "zero-session metrics fed through
`computeScoreV2` produce 100" is false — on the metrics of the empty session
list the v2 score is not 100. -/
theorem computeScoreV2_zeroSessions_ne_100 :
    computeScoreV2 (computeMetrics []) ≠ 100 := by
  simp [computeScoreV2, computeMetrics]
  norm_num [round_eq, clampScore]

/-- C1 (amended): for a tutor with zero sessions the v2 score formula yields
exactly 96: every penalty term vanishes except the volume step penalty, which
is 4 because `sessionsCount = 0 < 5`, so the score is `100 − 4 = 96`. -/
theorem computeScoreV2_zeroSessions_eq_96 :
    computeScoreV2 (computeMetrics []) = 96 := by
  simp [computeScoreV2, computeMetrics]
  norm_num [round_eq, clampScore]

/-- C2 (counterexample): the claim "for a zero-session tutor the Intervention
Recommender returns an empty list" is false — on the feature vector the
pipeline builds for a zero-session tutor (and the stable trajectory its flat
trend forecasts), the returned list is non-empty. -/
theorem recommendInterventions_zeroSessions_ne_nil :
    recommendInterventions zeroSessionVector zeroSessionContext ≠ [] := by
  intro h
  have hids := zeroSession_recommendationIds
  rw [h] at hids
  simp at hids

/-- C2 (amended): for a tutor with zero sessions the Intervention Recommender
returns exactly two interventions, `quality-lift` then `first-session-rescue`:
`safeNumber` coerces the null average and first-session ratings to 0, which
the two rating-based match functions read as very low ratings (match scores
4.5 and 3.5, both above the 0.05 cut). -/
theorem recommendInterventions_zeroSessions_eq_pair :
    (recommendInterventions zeroSessionVector zeroSessionContext).map
        (fun r => r.id) = ["quality-lift", "first-session-rescue"] :=
  zeroSession_recommendationIds

/-- C3 (counterexample): the claim "every per-feature population standard
deviation is at least 1" is false — for the two-vector batch whose dropout
rates are 0 and 1, the dropout-rate standard deviation is `√(1/4) = 1/2 < 1`:
`Math.sqrt(variance) || 1` only replaces a zero result by 1, it does not floor
the result at 1. -/
theorem computeStatistics_stdDev_lt_one :
    (computeStatistics [flatVector, dropoutVector]).stdDevs
      FeatureKey.dropout_rate < 1 := by
  have hv : (computeStatistics [flatVector, dropoutVector]).stdDevs
      FeatureKey.dropout_rate = orOne (Real.sqrt (1/4)) := by
    unfold computeStatistics
    dsimp only
    norm_num [flatVector, dropoutVector, zeroFeatures, featureGet]
  rw [hv, show Real.sqrt (1/4) = 1/2 by
        rw [show (1/4 : ℝ) = (1/2)^2 by norm_num, Real.sqrt_sq (by norm_num)]]
  norm_num [orOne]

/-- C3 (amended): for every batch of tutor feature vectors, every per-feature
population standard deviation computed by `computeStatistics` is strictly
positive — a zero standard deviation is replaced by 1, but values strictly
between 0 and 1 are kept as they are. -/
theorem computeStatistics_stdDev_pos (vectors : List TutorFeatureVector)
    (key : FeatureKey) : 0 < (computeStatistics vectors).stdDevs key := by
  unfold computeStatistics orOne
  dsimp only
  split
  · norm_num
  · rename_i h
    exact lt_of_le_of_ne (Real.sqrt_nonneg _) (Ne.symm h)

/-- C4: for every list of session records and both formula versions, the
computed score lies in `[0, 100]`; it is an integer by construction (the
embedding's `computeScore` is `ℤ`-valued, the rounded and clamped raw score). -/
theorem computeScore_bounds (sessions : List SessionRecord)
    (version : ScoreFormulaVersion) :
    0 ≤ computeScore (computeMetrics sessions) version ∧
      computeScore (computeMetrics sessions) version ≤ 100 := by
  cases version <;>
    simp only [computeScore, computeScoreV1, computeScoreV2] <;>
    exact clampScore_bounds _

/-- C5: the Trend Builder returns exactly one integer per requested calendar
date: the raw day-by-day sequence (scored days in isolation, gaps carried
forward from the fallback seed) has one entry per date, and the window-3
edge-clipped moving average applied on top preserves that length. -/
theorem buildTrendForTutor_length (sessions : List SessionRecord)
    (dates : List String) (fallbackScore : ℤ) (version : ScoreFormulaVersion) :
    (buildTrendForTutor sessions dates fallbackScore version).length =
        dates.length ∧
      (rawTrend sessions dates fallbackScore version).length = dates.length ∧
      buildTrendForTutor sessions dates fallbackScore version =
        smoothTrend (rawTrend sessions dates fallbackScore version) 3 := by
  refine ⟨?_, rawTrend_length sessions dates fallbackScore version, rfl⟩
  unfold buildTrendForTutor
  rw [smoothTrend_length, rawTrend_length]

/-- C6: the churn-risk heuristic equals the clamped sum of the four weighted
rates, the low-first-session-rating bonus, the score-band bonus and the
trend-delta adjustment, and its value always lies in `[0, 1]`. -/
theorem computeChurnRisk_formula_bounds (m : AggregatedMetrics) (s : ℤ)
    (t : List ℤ) :
    computeChurnRisk m s t =
        clamp01
          (m.dropoutRate * 0.4 + m.noShowRate * 0.3 +
            m.tutorInitiatedRescheduleRate * 0.2 +
            m.firstSessionDropoutRate * 0.1 +
            (match m.firstSessionAvgRating with
             | some r => if r < 3.0 then (0.05 : ℚ) else 0
             | none => 0) +
            (if s < 50 then (0.12 : ℚ)
             else if s < 60 then 0.08
             else if s < 70 then 0.04
             else 0) +
            (if 2 ≤ t.length then
              (if t.getLastD 0 - t.headD 0 < -15 then (0.07 : ℚ)
               else if t.getLastD 0 - t.headD 0 < -8 then 0.04
               else if t.getLastD 0 - t.headD 0 > 5 then -0.03
               else 0)
             else 0)) ∧
      0 ≤ computeChurnRisk m s t ∧ computeChurnRisk m s t ≤ 1 := by
  constructor
  · unfold computeChurnRisk
    rcases m.firstSessionAvgRating with _ | r <;> dsimp only <;>
      split_ifs <;> ring_nf
  · unfold computeChurnRisk
    exact clamp01_bounds _

/-- C7: the recommender returns at most 3 interventions (the `>0.05` filter,
descending stable sort and `slice(0, 3)` leave at most three entries) and the
rank-bumped displayed effectiveness `min(0.95, base + 0.05·rank)` of every
returned intervention is at most 0.95. -/
theorem recommendInterventions_top3_effectiveness (v : TutorFeatureVector)
    (c : InterventionContext) :
    (recommendInterventions v c).length ≤ 3 ∧
      ∀ r ∈ recommendInterventions v c, r.effectiveness ≤ 0.95 := by
  constructor
  · unfold recommendInterventions
    dsimp only
    rw [List.length_map, List.enum_length, List.length_take]
    exact min_le_left _ _
  · intro r hr
    unfold recommendInterventions at hr
    simp only [List.mem_map] at hr
    obtain ⟨p, _, rfl⟩ := hr
    exact min_le_left _ _

/-- C8: training on a zero-tutor batch returns the all-zero model (zero bias,
every weight zero) without any degenerate computation, and predicting with
that model gives probability `sigmoid 0 = 1/2` for every feature vector. -/
theorem trainChurnModel_emptyBatch :
    (trainChurnModel (buildFeatureMatrix [])).bias = 0 ∧
      (∀ k, (trainChurnModel (buildFeatureMatrix [])).weights k = 0) ∧
      ∀ v : TutorFeatureVector,
        (predictChurn v (trainChurnModel (buildFeatureMatrix []))).probability
          = 1/2 := by
  have hmodel : trainChurnModel (buildFeatureMatrix []) =
      { weights := initialiseWeights, bias := 0, featureKeys := FEATURE_KEYS,
        featureMeans := (computeStatistics []).means,
        featureStds := (computeStatistics []).stdDevs } := by
    unfold trainChurnModel buildFeatureMatrix
    simp
  refine ⟨by rw [hmodel], fun k => by rw [hmodel]; rfl, fun v => ?_⟩
  rw [hmodel]
  unfold predictChurn
  simp [initialiseWeights, sigmoid]
  norm_num

/-- C9: the forecast confidence equals
`clamp (1 − min 1 (variance/80)) 0.2 0.95` for the population variance of the
trend values, and therefore always lies in `[0.2, 0.95]`. -/
theorem forecastTrend_confidence (trend : List ℚ) (currentScore : ℚ) :
    (forecastTrend trend currentScore).confidence =
        clamp (1 - min 1 (computeVariance trend / 80)) 0.2 0.95 ∧
      0.2 ≤ (forecastTrend trend currentScore).confidence ∧
      (forecastTrend trend currentScore).confidence ≤ 0.95 := by
  refine ⟨rfl, ?_⟩
  exact clamp_bounds _ _ _ (by norm_num)

/-- C10: the Persona Classifier always answers with one of the four fixed
archetypes of `PERSONA_LIBRARY`; in particular the persona attached to every
insight bundle is never null even though its type admits null. -/
theorem assignPersona_mem_library (v : TutorFeatureVector) :
    assignPersona v ∈ PERSONA_LIBRARY := by
  unfold assignPersona
  rcases assignPersonaLoop_mem (normaliseVector v) PERSONA_LIBRARY risingStar
      none with h | h
  · rw [h]; exact List.mem_cons_self _ _
  · exact h

end TutorSense
